import Mathlib

/-!
Verification of the session-signaling and dual-transport input-delivery
subsystem of the peoplo-connect screen-sharing application.

Part 1 embeds the server-side signaling code (the `sessions` map and the
`handleCreateSession`, `handleJoinSession`, `handleLeaveSession`,
`handleCleanupSession`, `handleSignalingMessage`, `handleControlMessage`
and `cleanupDisconnectedClient` functions of the Electron main process).
JavaScript `Map`s are modelled as association lists in insertion order
(`Map.set` overwrites in place or appends; `Map.delete` removes);
connection handles (`ws` objects) are opaque naturals; every handler
returns the updated registry together with the ordered list of
`(destination handle, message)` pairs it wrote.

Part 2 embeds the renderer-side `WebRTCManager` send paths
(`sendDataChannelMessage`, `sendBatchedMouseMove`, `sendMouseEvent`,
`sendKeyboardEvent`, `sendScreenResolution`, `sendSignalingMessage`)
as pure state transformers over a state carrying the channel readiness
flags, the pending mouse-move queue and the transcripts of side-channel
and relay sends.

Part 3 embeds the role-reversal restart guard of the unified page
(`isRestartingAsHostRef` and the failure handler inside
`connectToRemote`).
-/

/-! ### Part 1: server-side session registry and router -/

/-- An opaque relay connection handle (one per accepted WebSocket). -/
abbrev Handle := Nat

/-- A session registry entry: `{host, clients, createdAt}` as built by
`handleCreateSession`.  `clients` is the `Map` from client identifier to
connection handle, in insertion order. -/
structure Session where
  host : Handle
  clients : List (String × Handle)
  createdAt : Nat
  deriving DecidableEq, Repr

/-- The global `sessions` map: session identifier to session, in
insertion order. -/
abbrev Registry := List (String × Session)

/-- JavaScript `Map.get`: first entry with the given key, if any. -/
def mapGet (k : String) : List (String × α) → Option α
  | [] => none
  | (k', v) :: rest => if k' = k then some v else mapGet k rest

/-- JavaScript `Map.set`: overwrite in place if the key is present, append otherwise
(JavaScript `Map` insertion-order semantics). -/
def mapSet (k : String) (v : α) : List (String × α) → List (String × α)
  | [] => [(k, v)]
  | (k', v') :: rest =>
      if k' = k then (k, v) :: rest else (k', v') :: mapSet k v rest

/-- JavaScript `Map.delete`: remove every entry with the given key (there is at most
one in a well-formed map). -/
def mapDelete (k : String) (l : List (String × α)) : List (String × α) :=
  l.filter (fun e => e.1 ≠ k)

/-- JavaScript `sessions.has`. -/
def mapHas (k : String) (l : List (String × α)) : Bool :=
  (mapGet k l).isSome

/-- Tags of the messages the server routes without interpreting
(the `offer | answer | ice_candidate` and the control cases of
`handleWebSocketMessage`'s switch). -/
inductive RouteTag where
  | offer | answer | iceCandidate
  | mouseMove | mouseClick | mouseDown | mouseUp
  | keyDown | keyUp | screenResolution
  deriving DecidableEq, Repr

/-- A routed message as the server sees it: a tag plus the `sessionId`
and `clientId` fields it destructures; the payload is opaque to the
server and is carried along untouched. -/
structure RoutedMsg where
  tag : RouteTag
  sessionId : String
  clientId : String
  deriving DecidableEq, Repr

/-- Messages the server writes to handles. -/
inductive ServerMsg where
  | sessionCreated (sessionId : String)
  | sessionError (sessionId : String) (error : String)
  | sessionJoined (sessionId : String) (clientId : String)
  | clientJoined (sessionId : String) (clientId : String)
  | hostDisconnected (sessionId : String)
  | clientLeft (sessionId : String) (clientId : String)
  | sessionTerminated (sessionId : String) (reason : String)
  | forward (m : RoutedMsg)
  deriving DecidableEq, Repr

/-- One `handle.send(JSON.stringify(msg))` call. -/
abbrev Send := Handle × ServerMsg

/-- Source `handleCreateSession(ws, message)`: error if the id exists, else
insert `{host: ws, clients: new Map(), createdAt}` and acknowledge. -/
def handleCreateSession (st : Registry) (ws : Handle) (sessionId : String)
    (now : Nat) : Registry × List Send :=
  if mapHas sessionId st then
    (st, [(ws, .sessionError sessionId "Session already exists")])
  else
    (mapSet sessionId ⟨ws, [], now⟩ st, [(ws, .sessionCreated sessionId)])

/-- Source `handleJoinSession(ws, message)`: error if the id is absent, else
insert/overwrite the client entry, acknowledge the joiner and notify the
host. -/
def handleJoinSession (st : Registry) (ws : Handle) (sessionId : String)
    (clientId : String) : Registry × List Send :=
  match mapGet sessionId st with
  | none => (st, [(ws, .sessionError sessionId "Session not found")])
  | some session =>
      (mapSet sessionId { session with clients := mapSet clientId ws session.clients } st,
       [(ws, .sessionJoined sessionId clientId),
        (session.host, .clientJoined sessionId clientId)])

/-- Source `handleLeaveSession(ws, message)`: silently returns if the id is
absent; if `ws` is the host, notifies every client with
`host_disconnected` and deletes the session; otherwise removes the
client and notifies the host with `client_left`. -/
def handleLeaveSession (st : Registry) (ws : Handle) (sessionId : String)
    (clientId : String) : Registry × List Send :=
  match mapGet sessionId st with
  | none => (st, [])
  | some session =>
      if session.host = ws then
        (mapDelete sessionId st,
         session.clients.map (fun c => (c.2, .hostDisconnected sessionId)))
      else
        (mapSet sessionId { session with clients := mapDelete clientId session.clients } st,
         [(session.host, .clientLeft sessionId clientId)])

/-- Source `handleCleanupSession(ws, message)`: no-op if the id is absent;
otherwise notifies every client and then the host with
`session_terminated` — the `reason` field written is the literal
`"host_logout"`, not the `reason` of the request — and deletes the
session. -/
def handleCleanupSession (st : Registry) (ws : Handle) (sessionId : String)
    (reason : String) : Registry × List Send :=
  match mapGet sessionId st with
  | none => (st, [])
  | some session =>
      let _ := (ws, reason)  -- destructured but only logged by the source
      (mapDelete sessionId st,
       session.clients.map (fun c => (c.2, .sessionTerminated sessionId "host_logout"))
         ++ [(session.host, .sessionTerminated sessionId "host_logout")])

/-- Source `handleSignalingMessage(ws, message)`: from the host, forward to the
single client named by `clientId` (drop if absent); from anyone else,
forward to the host. -/
def handleSignalingMessage (st : Registry) (ws : Handle) (m : RoutedMsg) :
    Registry × List Send :=
  match mapGet m.sessionId st with
  | none => (st, [])
  | some session =>
      if session.host = ws then
        match mapGet m.clientId session.clients with
        | some clientWs => (st, [(clientWs, .forward m)])
        | none => (st, [])
      else
        (st, [(session.host, .forward m)])

/-- Source `handleControlMessage(ws, message)`: from the host, forward to every
client of the session; from anyone else, forward to the host. -/
def handleControlMessage (st : Registry) (ws : Handle) (m : RoutedMsg) :
    Registry × List Send :=
  match mapGet m.sessionId st with
  | none => (st, [])
  | some session =>
      if session.host = ws then
        (st, session.clients.map (fun c => (c.2, .forward m)))
      else
        (st, [(session.host, .forward m)])

/-- Dispatch of `handleWebSocketMessage` for the routed tags: `offer`,
`answer` and `ice_candidate` go to `handleSignalingMessage`, the rest to
`handleControlMessage`. -/
def isSignalingTag : RouteTag → Bool
  | .offer | .answer | .iceCandidate => true
  | _ => false

/-- The routing step of `handleWebSocketMessage` for a routable tag. -/
def handleRoutedMessage (st : Registry) (ws : Handle) (m : RoutedMsg) :
    Registry × List Send :=
  if isSignalingTag m.tag then handleSignalingMessage st ws m
  else handleControlMessage st ws m

/-- One session entry of the `sessions.forEach` scan in
`cleanupDisconnectedClient`: if `ws` is the host the session is deleted
and every client notified with `host_disconnected`; otherwise every
client entry whose handle is `ws` is removed (the inner `return` only
exits that iteration's callback) and the host notified with
`client_left` for each. -/
def cleanupSessionEntry (ws : Handle) (e : String × Session) :
    Option (String × Session) × List Send :=
  if e.2.host = ws then
    (none, e.2.clients.map (fun c => (c.2, .hostDisconnected e.1)))
  else
    (some (e.1, { e.2 with clients := e.2.clients.filter (fun c => c.2 ≠ ws) }),
     (e.2.clients.filter (fun c => c.2 = ws)).map
       (fun c => (e.2.host, .clientLeft e.1 c.1)))

/-- Source `cleanupDisconnectedClient(ws)`: scan every session (deleting an
entry during a JavaScript `Map.forEach` is safe, iteration continues
over the remaining entries). -/
def cleanupDisconnectedClient (st : Registry) (ws : Handle) :
    Registry × List Send :=
  match st with
  | [] => ([], [])
  | e :: rest =>
      let p := cleanupSessionEntry ws e
      let r := cleanupDisconnectedClient rest ws
      (match p.1 with
       | none => r.1
       | some e' => e' :: r.1,
       p.2 ++ r.2)

/-! ### Part 2: renderer-side `WebRTCManager` send paths -/

/-- One queued pointer coordinate (`{x, y}` pushed by `sendMouseEvent`).
The source carries normalized floating-point coordinates; they are
opaque pass-through data here, so integers stand in. -/
structure MouseData where
  x : Int
  y : Int
  deriving DecidableEq, Repr

/-- The `button` field of a mouse payload. -/
inductive MouseButton where
  | left | right | middle
  deriving DecidableEq, Repr

/-- The `type` argument of `sendMouseEvent`. -/
inductive MouseKind where
  | move | click | down | up
  deriving DecidableEq, Repr

/-- The `type` argument of `sendKeyboardEvent`. -/
inductive KeyKind where
  | keyDown | keyUp
  deriving DecidableEq, Repr

/-- The `keyboardData` payload. -/
structure KeyboardData where
  key : String
  code : String
  ctrlKey : Bool
  shiftKey : Bool
  altKey : Bool
  metaKey : Bool
  deriving DecidableEq, Repr

/-- The message objects the manager sends over the DataChannel or the
relay WebSocket. -/
inductive ClientMsg where
  | mouseEvent (kind : MouseKind) (sessionId clientId : String)
      (mouseData : MouseData) (button : Option MouseButton)
  | mouseMoveBatch (sessionId clientId : String) (mouseData : List MouseData)
  | mouseMoveSingle (sessionId clientId : String) (mouseData : MouseData)
  | keyEvent (kind : KeyKind) (sessionId clientId : String) (keyboardData : KeyboardData)
  | screenResolution (sessionId clientId : String) (width height : Nat)
  deriving DecidableEq, Repr

/-- The slice of `WebRTCManager` state the send paths read and write,
plus transcripts of the sends performed: `dcSends` records every
`dataChannel.send`, `wsSends` every `ws.send`. -/
structure WRTCState where
  isHost : Bool
  sessionId : String
  clientId : String
  /-- Source condition `dataChannel !== null && dataChannel.readyState === "open"`. -/
  dcOpen : Bool
  /-- Source condition `ws !== null && ws.readyState === WebSocket.OPEN`. -/
  wsOpen : Bool
  mouseMoveQueue : List MouseData
  dcSends : List ClientMsg
  wsSends : List ClientMsg
  deriving DecidableEq, Repr

/-- Source `sendDataChannelMessage(message)`: sends and returns `true` iff the
DataChannel exists and is open, else returns `false`. -/
def sendDataChannelMessage (st : WRTCState) (m : ClientMsg) : WRTCState × Bool :=
  if st.dcOpen then ({ st with dcSends := st.dcSends ++ [m] }, true)
  else (st, false)

/-- Source `sendSignalingMessage(message)`: sends iff the WebSocket is open
(else only logs an error). -/
def sendSignalingMessage (st : WRTCState) (m : ClientMsg) : WRTCState :=
  if st.wsOpen then { st with wsSends := st.wsSends ++ [m] } else st

/-- Source `sendBatchedMouseMove()`: returns if the queue is empty; otherwise
tries the whole queue as one `mouse_move_batch` over the DataChannel,
falls back to one relay `mouse_move` per queued coordinate in order,
and clears the queue. -/
def sendBatchedMouseMove (st : WRTCState) : WRTCState :=
  if st.mouseMoveQueue.length = 0 then st
  else
    let m := ClientMsg.mouseMoveBatch st.sessionId st.clientId st.mouseMoveQueue
    let r := sendDataChannelMessage st m
    let st2 :=
      if !r.2 ∧ r.1.wsOpen then
        r.1.mouseMoveQueue.foldl
          (fun s d => sendSignalingMessage s (.mouseMoveSingle s.sessionId s.clientId d)) r.1
      else r.1
    { st2 with mouseMoveQueue := [] }

/-- Source `sendMouseEvent(type, x, y, button)` (client side only): a
`mouse_move` is enqueued for the zero-delay batch flush; the discrete
kinds try the DataChannel and fall back to the relay iff the DataChannel
attempt did not send and the WebSocket is open. -/
def sendMouseEvent (st : WRTCState) (kind : MouseKind) (x y : Int)
    (button : Option MouseButton) : WRTCState :=
  if st.isHost then st
  else if kind = .move then
    { st with mouseMoveQueue := st.mouseMoveQueue ++ [⟨x, y⟩] }
  else
    let m := ClientMsg.mouseEvent kind st.sessionId st.clientId ⟨x, y⟩ button
    let r := sendDataChannelMessage st m
    if !r.2 ∧ r.1.wsOpen then sendSignalingMessage r.1 m else r.1

/-- Source `sendKeyboardEvent(type, ...)` (client side only): DataChannel
first, relay iff that did not send and the WebSocket is open. -/
def sendKeyboardEvent (st : WRTCState) (kind : KeyKind) (kd : KeyboardData) :
    WRTCState :=
  if st.isHost then st
  else
    let m := ClientMsg.keyEvent kind st.sessionId st.clientId kd
    let r := sendDataChannelMessage st m
    if !r.2 ∧ r.1.wsOpen then sendSignalingMessage r.1 m else r.1

/-- Source `sendScreenResolution(width, height)` (host side only): DataChannel
first; on failure falls to `sendSignalingMessage`, which itself only
sends when the WebSocket is open. -/
def sendScreenResolution (st : WRTCState) (width height : Nat) : WRTCState :=
  if st.isHost then
    let m := ClientMsg.screenResolution st.sessionId st.clientId width height
    let r := sendDataChannelMessage st m
    if !r.2 then sendSignalingMessage r.1 m else r.1
  else st

/-! ### Part 3: role-reversal restart guard of the unified page -/

/-- The slice of the unified page's state driving the restart-as-host
sequence, with transcripts: `scheduled` counts restart sequences
scheduled, `hostStarts` the session ids passed to `startHostSession`,
`retries` the delayed retry attempts, `reported` the give-up error
reports. -/
structure RestartState where
  /-- Source `isRestartingAsHostRef.current`. -/
  restarting : Bool
  scheduled : Nat
  hostStarts : List String
  retries : Nat
  reported : Nat
  deriving DecidableEq, Repr

/-- The synchronous part of the `disconnected`/`failed` branch of the
connection-state handler: if a restart is already in flight, return
without scheduling; otherwise raise the single-flight flag and schedule
one restart sequence. -/
def onPeerFailure (st : RestartState) : RestartState :=
  if st.restarting then st
  else { st with restarting := true, scheduled := st.scheduled + 1 }

/-- Source expression `mySessionId || sessionCode?.toString()`: the session id the restart
targets (the participant's own id), `none` when both are empty. -/
def restartSessionId (mySessionId sessionCode : String) : Option String :=
  if mySessionId ≠ "" then some mySessionId
  else if sessionCode ≠ "" then some sessionCode else none

/-- The deferred restart sequence scheduled by `onPeerFailure`:
without a session id it reports and resets the flag; otherwise it calls
`startHostSession` once, and on failure performs exactly one delayed
retry, reporting if that also fails; the flag is reset on every path.
`firstOk`/`retryOk` are the outcomes of the `startHostSession` calls. -/
def runRestart (st : RestartState) (mySessionId sessionCode : String)
    (firstOk retryOk : Bool) : RestartState :=
  match restartSessionId mySessionId sessionCode with
  | none => { st with restarting := false, reported := st.reported + 1 }
  | some sid =>
      if firstOk then
        { st with hostStarts := st.hostStarts ++ [sid], restarting := false }
      else
        let st1 := { st with hostStarts := st.hostStarts ++ [sid] }
        if retryOk then
          { st1 with hostStarts := st1.hostStarts ++ [sid],
                     retries := st1.retries + 1, restarting := false }
        else
          { st1 with hostStarts := st1.hostStarts ++ [sid],
                     retries := st1.retries + 1,
                     reported := st1.reported + 1, restarting := false }

/-! ### Map lemmas -/

theorem mapGet_mapSet_self (k : String) (v : α) (l : List (String × α)) :
    mapGet k (mapSet k v l) = some v := by
  induction l with
  | nil => simp [mapGet, mapSet]
  | cons e rest ih =>
      by_cases h : e.1 = k
      · simp [mapGet, mapSet, h]
      · simp [mapGet, mapSet, h, ih]

theorem mapGet_mapDelete_self (k : String) (l : List (String × α)) :
    mapGet k (mapDelete k l) = none := by
  induction l with
  | nil => simp [mapGet, mapDelete]
  | cons e rest ih =>
      by_cases h : e.1 = k
      · simpa [mapDelete, h] using ih
      · simpa [mapDelete, mapGet, h] using ih

/-! ### C1: create_session -/

/-- C1: `createSession(s)` on an absent `s` succeeds — the requester
receives `session_created` and `{host: ws, clients: {}}` is inserted;
on a present `s` it fails with `session_error "Session already exists"`
and leaves the registry (hence the entry for `s`) unchanged; two
consecutive `createSession(s)` calls therefore yield exactly one success
and one already-exists failure. -/
theorem createSession_spec (st : Registry) (ws1 ws2 : Handle) (sid : String)
    (now1 now2 : Nat) (h : mapGet sid st = none) :
    handleCreateSession st ws1 sid now1 =
      (mapSet sid ⟨ws1, [], now1⟩ st, [(ws1, .sessionCreated sid)]) ∧
    (∀ st' ws now sess, mapGet sid st' = some sess →
      handleCreateSession st' ws sid now =
        (st', [(ws, .sessionError sid "Session already exists")])) ∧
    handleCreateSession (handleCreateSession st ws1 sid now1).1 ws2 sid now2 =
      ((handleCreateSession st ws1 sid now1).1,
       [(ws2, .sessionError sid "Session already exists")]) := by
  have hfirst : handleCreateSession st ws1 sid now1 =
      (mapSet sid ⟨ws1, [], now1⟩ st, [(ws1, .sessionCreated sid)]) := by
    simp [handleCreateSession, mapHas, h]
  have hexists : ∀ st' ws now sess, mapGet sid st' = some sess →
      handleCreateSession st' ws sid now =
        (st', [(ws, .sessionError sid "Session already exists")]) := by
    intro st' ws now sess h'
    simp [handleCreateSession, mapHas, h']
  refine ⟨hfirst, hexists, ?_⟩
  rw [hfirst]
  exact hexists _ _ _ _ (mapGet_mapSet_self sid ⟨ws1, [], now1⟩ st)

theorem createSession_spec_witness :
    handleCreateSession (handleCreateSession [] 1 "s123" 0).1 2 "s123" 5 =
      ((handleCreateSession [] 1 "s123" 0).1,
       [(2, .sessionError "s123" "Session already exists")]) :=
  (createSession_spec [] 1 2 "s123" 0 5 rfl).2.2

/-! ### C2: join_session -/

/-- C2: `joinSession(s, c)` on an absent `s` fails with
`session_error "Session not found"`, notifies no host and leaves the
registry unchanged; on a present `s` it inserts/overwrites the client
entry for `c`, acknowledges the joiner with `session_joined`, and the
host receives exactly one `client_joined` carrying `c`. -/
theorem joinSession_spec (st : Registry) (ws : Handle) (sid cid : String) :
    (mapGet sid st = none →
      handleJoinSession st ws sid cid =
        (st, [(ws, .sessionError sid "Session not found")])) ∧
    (∀ sess, mapGet sid st = some sess →
      handleJoinSession st ws sid cid =
        (mapSet sid { sess with clients := mapSet cid ws sess.clients } st,
         [(ws, .sessionJoined sid cid), (sess.host, .clientJoined sid cid)]) ∧
      ((handleJoinSession st ws sid cid).2.filter
        (fun p => p = (sess.host, ServerMsg.clientJoined sid cid))).length = 1) := by
  constructor
  · intro h; simp [handleJoinSession, h]
  · intro sess h
    have heq : handleJoinSession st ws sid cid =
        (mapSet sid { sess with clients := mapSet cid ws sess.clients } st,
         [(ws, .sessionJoined sid cid), (sess.host, .clientJoined sid cid)]) := by
      simp [handleJoinSession, h]
    refine ⟨heq, ?_⟩
    rw [heq]
    simp

theorem joinSession_spec_witness :
    handleJoinSession [] 5 "s123" "c1" =
      ([], [(5, .sessionError "s123" "Session not found")]) :=
  (joinSession_spec [] 5 "s123" "c1").1 rfl

/-! ### C10: routing performs no sender-membership check -/

/-- C10: a negotiation or control message naming an existing session,
sent from any handle that is not the session's host — membership in the
session is nowhere required — is forwarded to the session's host, and to
it alone. -/
theorem routing_no_membership_check (st : Registry) (ws : Handle)
    (m : RoutedMsg) (sess : Session)
    (h : mapGet m.sessionId st = some sess) (hw : ws ≠ sess.host) :
    handleSignalingMessage st ws m = (st, [(sess.host, .forward m)]) ∧
    handleControlMessage st ws m = (st, [(sess.host, .forward m)]) := by
  have hne : ¬ sess.host = ws := fun h' => hw h'.symm
  constructor
  · simp [handleSignalingMessage, h, hne]
  · simp [handleControlMessage, h, hne]

theorem routing_no_membership_check_witness :
    handleSignalingMessage [("s123", ⟨7, [("c1", 8)], 0⟩)] 99
        ⟨.offer, "s123", "cX"⟩ =
      ([("s123", ⟨7, [("c1", 8)], 0⟩)], [(7, .forward ⟨.offer, "s123", "cX"⟩)]) ∧
    handleControlMessage [("s123", ⟨7, [("c1", 8)], 0⟩)] 99
        ⟨.mouseMove, "s123", "cX"⟩ =
      ([("s123", ⟨7, [("c1", 8)], 0⟩)], [(7, .forward ⟨.mouseMove, "s123", "cX"⟩)]) :=
  ⟨(routing_no_membership_check [("s123", ⟨7, [("c1", 8)], 0⟩)] 99
      ⟨.offer, "s123", "cX"⟩ ⟨7, [("c1", 8)], 0⟩ (by simp [mapGet]) (by decide)).1,
   (routing_no_membership_check [("s123", ⟨7, [("c1", 8)], 0⟩)] 99
      ⟨.mouseMove, "s123", "cX"⟩ ⟨7, [("c1", 8)], 0⟩ (by simp [mapGet]) (by decide)).2⟩

/-! ### C7: cleanup_session -/

/-- C7 counterexample: a `cleanup_session` with reason `"user_logout"`
on an existing session sends `session_terminated` messages whose
`reason` field is the literal `"host_logout"`, not the supplied reason —
no sent message carries the supplied reason. -/
theorem cleanupSession_reason_counterexample :
    (handleCleanupSession [("s123", ⟨0, [("c1", 1)], 0⟩)] 7 "s123" "user_logout").2 =
      [(1, .sessionTerminated "s123" "host_logout"),
       (0, .sessionTerminated "s123" "host_logout")] ∧
    ((handleCleanupSession [("s123", ⟨0, [("c1", 1)], 0⟩)] 7 "s123" "user_logout").2.filter
      (fun p => p.2 = ServerMsg.sessionTerminated "s123" "user_logout")).length = 0 := by
  constructor
  · rfl
  · decide

/-- C7 amended: for every `cleanupSession(id, reason)` request: if `id`
is present, the session's host and every client each receive exactly one
`session_terminated` message whose `reason` field is the constant
`"host_logout"` (the supplied reason argument is only logged, never
forwarded), and the session is deleted; if `id` is absent, the registry
is unchanged and no message is sent. -/
theorem cleanupSession_spec (st : Registry) (ws : Handle) (sid reason : String) :
    (mapGet sid st = none → handleCleanupSession st ws sid reason = (st, [])) ∧
    (∀ sess, mapGet sid st = some sess →
      handleCleanupSession st ws sid reason =
        (mapDelete sid st,
         sess.clients.map (fun c => (c.2, .sessionTerminated sid "host_logout"))
           ++ [(sess.host, .sessionTerminated sid "host_logout")]) ∧
      mapGet sid (handleCleanupSession st ws sid reason).1 = none) := by
  constructor
  · intro h; simp [handleCleanupSession, h]
  · intro sess h
    have heq : handleCleanupSession st ws sid reason =
        (mapDelete sid st,
         sess.clients.map (fun c => (c.2, .sessionTerminated sid "host_logout"))
           ++ [(sess.host, .sessionTerminated sid "host_logout")]) := by
      simp [handleCleanupSession, h]
    exact ⟨heq, by rw [heq]; exact mapGet_mapDelete_self sid st⟩

theorem cleanupSession_spec_witness :
    handleCleanupSession [("s123", ⟨0, [("c1", 1)], 0⟩)] 7 "s123" "user_logout" =
      (mapDelete "s123" [("s123", ⟨0, [("c1", 1)], 0⟩)],
       [(1, .sessionTerminated "s123" "host_logout"),
        (0, .sessionTerminated "s123" "host_logout")]) :=
  ((cleanupSession_spec [("s123", ⟨0, [("c1", 1)], 0⟩)] 7 "s123" "user_logout").2
    ⟨0, [("c1", 1)], 0⟩ rfl).1

/-! ### C4: routing of negotiation and control messages -/

/-- C4 counterexample: in a session with host `0` and clients
`c1 ↦ 1`, `c2 ↦ 2`, a `mouse_move` control message from the host
carrying `clientId = "c1"` is forwarded to *both* client handles, not
only to the one identified by `clientId` — handle `2` also receives
it. -/
theorem hostControl_broadcast_counterexample :
    (handleControlMessage [("s123", ⟨0, [("c1", 1), ("c2", 2)], 0⟩)] 0
        ⟨.mouseMove, "s123", "c1"⟩).2 =
      [(1, .forward ⟨.mouseMove, "s123", "c1"⟩),
       (2, .forward ⟨.mouseMove, "s123", "c1"⟩)] ∧
    ((handleControlMessage [("s123", ⟨0, [("c1", 1), ("c2", 2)], 0⟩)] 0
        ⟨.mouseMove, "s123", "c1"⟩).2.filter (fun p => p.1 ≠ 1)).length = 1 := by
  constructor
  · rfl
  · decide

/-- C4 amended: on an existing session the registry is unchanged and the
destinations are: from a non-host sender, exactly the session's host; from
the host, for the negotiation tags (`offer`, `answer`, `ice_candidate`)
exactly the client identified by the message's `clientId` (nobody when
that client is absent), while for the control tags (`mouse_move`,
`mouse_click`, `mouse_down`, `mouse_up`, `key_down`, `key_up`,
`screen_resolution`) *every* client of the session receives the
message. -/
theorem routedMessage_destinations (st : Registry) (ws : Handle)
    (m : RoutedMsg) (sess : Session)
    (h : mapGet m.sessionId st = some sess) :
    (handleRoutedMessage st ws m).1 = st ∧
    (ws ≠ sess.host →
      (handleRoutedMessage st ws m).2 = [(sess.host, .forward m)]) ∧
    (ws = sess.host → isSignalingTag m.tag = true →
      (handleRoutedMessage st ws m).2 =
        (match mapGet m.clientId sess.clients with
         | some clientWs => [(clientWs, .forward m)]
         | none => [])) ∧
    (ws = sess.host → isSignalingTag m.tag = false →
      (handleRoutedMessage st ws m).2 =
        sess.clients.map (fun c => (c.2, .forward m))) := by
  refine ⟨?_, ?_, ?_, ?_⟩
  · by_cases hs : isSignalingTag m.tag
    · by_cases hh : sess.host = ws
      · cases hc : mapGet m.clientId sess.clients <;>
          simp [handleRoutedMessage, handleSignalingMessage, hs, h, hh, hc]
      · simp [handleRoutedMessage, handleSignalingMessage, hs, h, hh]
    · by_cases hh : sess.host = ws
      · simp [handleRoutedMessage, handleControlMessage, hs, h, hh]
      · simp [handleRoutedMessage, handleControlMessage, hs, h, hh]
  · intro hw
    have hne : ¬ sess.host = ws := fun h' => hw h'.symm
    by_cases hs : isSignalingTag m.tag <;>
      simp [handleRoutedMessage, handleSignalingMessage, handleControlMessage, hs, h, hne]
  · intro hw hs
    cases hc : mapGet m.clientId sess.clients <;>
      simp [handleRoutedMessage, handleSignalingMessage, hs, h, hw.symm, hc]
  · intro hw hs
    simp [handleRoutedMessage, handleControlMessage, hs, h, hw.symm]

theorem routedMessage_destinations_witness :
    (handleRoutedMessage [("s123", ⟨0, [("c1", 1), ("c2", 2)], 0⟩)] 0
        ⟨.offer, "s123", "c2"⟩).2 = [(2, .forward ⟨.offer, "s123", "c2"⟩)] ∧
    (handleRoutedMessage [("s123", ⟨0, [("c1", 1), ("c2", 2)], 0⟩)] 0
        ⟨.keyDown, "s123", "c2"⟩).2 =
      [(1, .forward ⟨.keyDown, "s123", "c2"⟩),
       (2, .forward ⟨.keyDown, "s123", "c2"⟩)] := by
  constructor
  · rw [(routedMessage_destinations [("s123", ⟨0, [("c1", 1), ("c2", 2)], 0⟩)] 0
        ⟨.offer, "s123", "c2"⟩ ⟨0, [("c1", 1), ("c2", 2)], 0⟩
        (by simp [mapGet])).2.2.1 rfl rfl]
    simp [mapGet]
  · rw [(routedMessage_destinations [("s123", ⟨0, [("c1", 1), ("c2", 2)], 0⟩)] 0
        ⟨.keyDown, "s123", "c2"⟩ ⟨0, [("c1", 1), ("c2", 2)], 0⟩
        (by simp [mapGet])).2.2.2 rfl rfl]
    rfl

/-! ### C3: host-initiated leave_session -/

theorem filter_snd_length_eq_count (l : List (String × Handle)) (h : Handle) :
    (l.filter (fun x => x.2 = h)).length = (l.map Prod.snd).count h := by
  induction l with
  | nil => simp
  | cons c rest ih =>
      by_cases hc : c.2 = h
      · simp [List.count_cons, hc, ih]
      · simp [List.count_cons, hc, ih]

theorem hostDisconnected_filter_length (sid : String) (l : List (String × Handle))
    (hd : Handle) :
    ((l.map (fun c => (c.2, ServerMsg.hostDisconnected sid))).filter
      (fun p => p = (hd, ServerMsg.hostDisconnected sid))).length =
    (l.map Prod.snd).count hd := by
  induction l with
  | nil => simp
  | cons c rest ih =>
      by_cases hc : c.2 = hd
      · simp [List.count_cons, hc, ih]
      · simp [List.count_cons, hc, ih]

/-- C3: a `leave_session` from the session's host deletes the session —
a subsequent `joinSession` on the same id fails with
`session_error "Session not found"` — and the messages sent are exactly
one `host_disconnected` per client entry; when the clients' handles are
pairwise distinct, each client handle therefore receives exactly one
`host_disconnected`. -/
theorem hostLeaveSession_spec (st : Registry) (ws : Handle) (sid cid : String)
    (sess : Session) (h : mapGet sid st = some sess) (hh : sess.host = ws) :
    handleLeaveSession st ws sid cid =
      (mapDelete sid st,
       sess.clients.map (fun c => (c.2, .hostDisconnected sid))) ∧
    mapGet sid (handleLeaveSession st ws sid cid).1 = none ∧
    (∀ ws2 cid2, handleJoinSession (handleLeaveSession st ws sid cid).1 ws2 sid cid2 =
      ((handleLeaveSession st ws sid cid).1,
       [(ws2, .sessionError sid "Session not found")])) ∧
    ((sess.clients.map Prod.snd).Nodup → ∀ c ∈ sess.clients,
      ((handleLeaveSession st ws sid cid).2.filter
        (fun p => p = (c.2, ServerMsg.hostDisconnected sid))).length = 1) := by
  have heq : handleLeaveSession st ws sid cid =
      (mapDelete sid st,
       sess.clients.map (fun c => (c.2, .hostDisconnected sid))) := by
    simp [handleLeaveSession, h, hh]
  have hget : mapGet sid (handleLeaveSession st ws sid cid).1 = none := by
    rw [heq]; exact mapGet_mapDelete_self sid st
  refine ⟨heq, hget, ?_, ?_⟩
  · intro ws2 cid2
    simp [handleJoinSession, hget]
  · intro hnd c hc
    rw [heq]
    rw [hostDisconnected_filter_length]
    exact List.count_eq_one_of_mem hnd (List.mem_map_of_mem Prod.snd hc)

theorem hostLeaveSession_spec_witness :
    handleLeaveSession [("s123", ⟨7, [("c1", 1), ("c2", 2)], 0⟩)] 7 "s123" "cX" =
      (mapDelete "s123" [("s123", ⟨7, [("c1", 1), ("c2", 2)], 0⟩)],
       [(1, .hostDisconnected "s123"), (2, .hostDisconnected "s123")]) :=
  (hostLeaveSession_spec [("s123", ⟨7, [("c1", 1), ("c2", 2)], 0⟩)] 7 "s123" "cX"
    ⟨7, [("c1", 1), ("c2", 2)], 0⟩ (by simp [mapGet]) rfl).1

/-! ### C9: disconnect cleanup is idempotent -/

theorem cleanupDisconnectedClient_cons_host (e : String × Session)
    (rest : Registry) (ws : Handle) (hh : e.2.host = ws) :
    cleanupDisconnectedClient (e :: rest) ws =
      ((cleanupDisconnectedClient rest ws).1,
       e.2.clients.map (fun c => (c.2, .hostDisconnected e.1))
         ++ (cleanupDisconnectedClient rest ws).2) := by
  simp [cleanupDisconnectedClient, cleanupSessionEntry, hh]

theorem cleanupDisconnectedClient_cons_nonhost (e : String × Session)
    (rest : Registry) (ws : Handle) (hh : ¬ e.2.host = ws) :
    cleanupDisconnectedClient (e :: rest) ws =
      ((e.1, { e.2 with clients := e.2.clients.filter (fun c => c.2 ≠ ws) })
         :: (cleanupDisconnectedClient rest ws).1,
       (e.2.clients.filter (fun c => c.2 = ws)).map
           (fun c => (e.2.host, .clientLeft e.1 c.1))
         ++ (cleanupDisconnectedClient rest ws).2) := by
  simp [cleanupDisconnectedClient, cleanupSessionEntry, hh]

/-- Handle `ws` occurs nowhere in the registry, neither as a host nor as a
client handle. -/
def HandleFree (ws : Handle) (st : Registry) : Prop :=
  ∀ e ∈ st, e.2.host ≠ ws ∧ ∀ c ∈ e.2.clients, c.2 ≠ ws

theorem cleanupDisconnectedClient_handleFree (st : Registry) (ws : Handle) :
    HandleFree ws (cleanupDisconnectedClient st ws).1 := by
  induction st with
  | nil => intro e he; simp [cleanupDisconnectedClient] at he
  | cons e rest ih =>
      intro e' he'
      by_cases hh : e.2.host = ws
      · rw [cleanupDisconnectedClient_cons_host e rest ws hh] at he'
        exact ih e' he'
      · rw [cleanupDisconnectedClient_cons_nonhost e rest ws hh] at he'
        rcases List.mem_cons.mp he' with he' | he'
        · subst he'
          refine ⟨hh, ?_⟩
          intro c hc
          have := List.of_mem_filter hc
          simpa using this
        · exact ih e' he'

theorem cleanupDisconnectedClient_of_handleFree (st : Registry) (ws : Handle)
    (hf : HandleFree ws st) : cleanupDisconnectedClient st ws = (st, []) := by
  induction st with
  | nil => rfl
  | cons e rest ih =>
      obtain ⟨hh, hc⟩ := hf e (List.mem_cons_self e rest)
      have hrest : HandleFree ws rest := fun e' he' => hf e' (List.mem_cons_of_mem e he')
      have hkeep : e.2.clients.filter (fun c => c.2 ≠ ws) = e.2.clients :=
        List.filter_eq_self.mpr (fun c hcm => by simpa using hc c hcm)
      have hgone : e.2.clients.filter (fun c => c.2 = ws) = [] :=
        List.filter_eq_nil_iff.mpr (fun c hcm => by simpa using hc c hcm)
      rw [cleanupDisconnectedClient_cons_nonhost e rest ws hh, ih hrest, hkeep, hgone]
      simp

/-- C9: disconnect cleanup is idempotent — after one
`cleanupDisconnectedClient` scan for a handle, a second scan for the
same handle leaves the registry exactly as the first left it and sends
no message, whatever the starting registry (the handle may occur in
zero, one or several sessions). -/
theorem cleanupDisconnectedClient_idempotent (st : Registry) (ws : Handle) :
    cleanupDisconnectedClient (cleanupDisconnectedClient st ws).1 ws =
      ((cleanupDisconnectedClient st ws).1, []) :=
  cleanupDisconnectedClient_of_handleFree _ ws
    (cleanupDisconnectedClient_handleFree st ws)

/-! ### C5: discrete input events use exactly one transport -/

/-- The transport contract of one discrete-event send: the side-channel
transcript grows by the message exactly when the channel is open, the
relay transcript grows by it exactly when the channel is not open and
the relay socket is open, and in no case do both grow. -/
def DiscreteSendOk (st st' : WRTCState) (m : ClientMsg) : Prop :=
  (st.dcOpen = true → st'.dcSends = st.dcSends ++ [m] ∧ st'.wsSends = st.wsSends) ∧
  (st.dcOpen = false → st.wsOpen = true →
    st'.wsSends = st.wsSends ++ [m] ∧ st'.dcSends = st.dcSends) ∧
  (st.dcOpen = false → st.wsOpen = false →
    st'.wsSends = st.wsSends ∧ st'.dcSends = st.dcSends)

/-- C5: every discrete input event (`mouse_click`, `mouse_down`,
`mouse_up`, `key_down`, `key_up`, `screen_resolution`) goes over the
side-channel exactly when it is open, over the relay exactly when the
side-channel attempt did not succeed and the relay socket is open, and
never over both; in particular, side-channel closed and relay open gives
exactly one relay send and no side-channel send. -/
theorem discreteEvent_singleTransport (st : WRTCState) (kind : MouseKind)
    (x y : Int) (b : Option MouseButton) (kk : KeyKind) (kd : KeyboardData)
    (w h : Nat) :
    (st.isHost = false → kind ≠ .move →
      DiscreteSendOk st (sendMouseEvent st kind x y b)
        (.mouseEvent kind st.sessionId st.clientId ⟨x, y⟩ b)) ∧
    (st.isHost = false →
      DiscreteSendOk st (sendKeyboardEvent st kk kd)
        (.keyEvent kk st.sessionId st.clientId kd)) ∧
    (st.isHost = true →
      DiscreteSendOk st (sendScreenResolution st w h)
        (.screenResolution st.sessionId st.clientId w h)) := by
  refine ⟨?_, ?_, ?_⟩
  · intro hhost hkind
    refine ⟨?_, ?_, ?_⟩ <;> intro hdc
    · simp [sendMouseEvent, sendDataChannelMessage, hhost, hkind, hdc]
    · intro hws
      simp [sendMouseEvent, sendDataChannelMessage, sendSignalingMessage,
        hhost, hkind, hdc, hws]
    · intro hws
      simp [sendMouseEvent, sendDataChannelMessage, sendSignalingMessage,
        hhost, hkind, hdc, hws]
  · intro hhost
    refine ⟨?_, ?_, ?_⟩ <;> intro hdc
    · simp [sendKeyboardEvent, sendDataChannelMessage, hhost, hdc]
    · intro hws
      simp [sendKeyboardEvent, sendDataChannelMessage, sendSignalingMessage,
        hhost, hdc, hws]
    · intro hws
      simp [sendKeyboardEvent, sendDataChannelMessage, sendSignalingMessage,
        hhost, hdc, hws]
  · intro hhost
    refine ⟨?_, ?_, ?_⟩ <;> intro hdc
    · simp [sendScreenResolution, sendDataChannelMessage, hhost, hdc]
    · intro hws
      simp [sendScreenResolution, sendDataChannelMessage, sendSignalingMessage,
        hhost, hdc, hws]
    · intro hws
      simp [sendScreenResolution, sendDataChannelMessage, sendSignalingMessage,
        hhost, hdc, hws]

theorem discreteEvent_singleTransport_witness :
    DiscreteSendOk
      ⟨false, "s123", "c1", false, true, [], [], []⟩
      (sendMouseEvent ⟨false, "s123", "c1", false, true, [], [], []⟩ .click 3 4
        (some .left))
      (.mouseEvent .click "s123" "c1" ⟨3, 4⟩ (some .left)) :=
  (discreteEvent_singleTransport ⟨false, "s123", "c1", false, true, [], [], []⟩
    .click 3 4 (some .left) .keyDown ⟨"a", "KeyA", false, false, false, false⟩
    10 10).1 rfl (by decide)

/-! ### C6: mouse_move batching and flush -/

/-- A burst of `sendMouseEvent("mouse_move", ...)` calls arriving before
the zero-delay flush tick (each call clears and re-arms the timeout, so
one `sendBatchedMouseMove` runs after the last call). -/
def enqueueMoves (st : WRTCState) (ds : List MouseData) : WRTCState :=
  ds.foldl (fun s d => sendMouseEvent s .move d.x d.y none) st

theorem enqueueMoves_effect (ds : List MouseData) (st : WRTCState)
    (hhost : st.isHost = false) :
    enqueueMoves st ds = { st with mouseMoveQueue := st.mouseMoveQueue ++ ds } := by
  induction ds generalizing st with
  | nil => simp [enqueueMoves]
  | cons d rest ih =>
      have hstep : sendMouseEvent st .move d.x d.y none =
          { st with mouseMoveQueue := st.mouseMoveQueue ++ [d] } := by
        simp [sendMouseEvent, hhost]
      have hrw : enqueueMoves st (d :: rest) =
          enqueueMoves { st with mouseMoveQueue := st.mouseMoveQueue ++ [d] } rest := by
        simp [enqueueMoves, hstep]
      rw [hrw, ih _ (by simp [hhost])]
      simp

theorem foldl_sendSignaling_moves (ds : List MouseData) (s : WRTCState)
    (hws : s.wsOpen = true) :
    ds.foldl (fun s d => sendSignalingMessage s (.mouseMoveSingle s.sessionId s.clientId d)) s
      = { s with wsSends := s.wsSends
            ++ ds.map (fun d => ClientMsg.mouseMoveSingle s.sessionId s.clientId d) } := by
  induction ds generalizing s with
  | nil => simp
  | cons d rest ih =>
      have hstep : sendSignalingMessage s (.mouseMoveSingle s.sessionId s.clientId d) =
          { s with wsSends := s.wsSends ++ [.mouseMoveSingle s.sessionId s.clientId d] } := by
        simp [sendSignalingMessage, hws]
      rw [List.foldl_cons, hstep, ih _ (by simp [hws])]
      simp

theorem sendBatchedMouseMove_dc (s : WRTCState) (hdc : s.dcOpen = true)
    (hne : s.mouseMoveQueue ≠ []) :
    sendBatchedMouseMove s =
      { s with mouseMoveQueue := [],
               dcSends := s.dcSends
                 ++ [.mouseMoveBatch s.sessionId s.clientId s.mouseMoveQueue] } := by
  have hlen : s.mouseMoveQueue.length ≠ 0 := fun h => hne (List.length_eq_zero.mp h)
  simp [sendBatchedMouseMove, sendDataChannelMessage, hdc, hlen]

theorem sendBatchedMouseMove_relay (s : WRTCState) (hdc : s.dcOpen = false)
    (hws : s.wsOpen = true) (hne : s.mouseMoveQueue ≠ []) :
    sendBatchedMouseMove s =
      { s with mouseMoveQueue := [],
               wsSends := s.wsSends ++ s.mouseMoveQueue.map
                 (fun d => ClientMsg.mouseMoveSingle s.sessionId s.clientId d) } := by
  have hlen : s.mouseMoveQueue.length ≠ 0 := fun h => hne (List.length_eq_zero.mp h)
  have hfold := foldl_sendSignaling_moves s.mouseMoveQueue s hws
  simp [sendBatchedMouseMove, sendDataChannelMessage, hdc, hws, hlen, hfold]

theorem sendBatchedMouseMove_noTransport (s : WRTCState) (hdc : s.dcOpen = false)
    (hws : s.wsOpen = false) (hne : s.mouseMoveQueue ≠ []) :
    sendBatchedMouseMove s = { s with mouseMoveQueue := [] } := by
  have hlen : s.mouseMoveQueue.length ≠ 0 := fun h => hne (List.length_eq_zero.mp h)
  simp [sendBatchedMouseMove, sendDataChannelMessage, hdc, hws, hlen]

/-- C6: a burst of `n ≥ 1` `mouse_move` calls before the next zero-delay
tick sends nothing at call time and only appends the coordinates, in
order, to the pending queue; the tick's flush then sends, side-channel
open, exactly one `mouse_move_batch` over the side-channel listing all
`n` coordinates in enqueue order, and otherwise, relay open, `n`
individual `mouse_move` messages over the relay in enqueue order; in
either case the queue is empty after the flush. -/
theorem mouseMove_batching (st : WRTCState) (ds : List MouseData)
    (hhost : st.isHost = false) (hq : st.mouseMoveQueue = []) (hne : ds ≠ []) :
    (enqueueMoves st ds).dcSends = st.dcSends ∧
    (enqueueMoves st ds).wsSends = st.wsSends ∧
    (enqueueMoves st ds).mouseMoveQueue = ds ∧
    (sendBatchedMouseMove (enqueueMoves st ds)).mouseMoveQueue = [] ∧
    (st.dcOpen = true →
      (sendBatchedMouseMove (enqueueMoves st ds)).dcSends =
        st.dcSends ++ [.mouseMoveBatch st.sessionId st.clientId ds] ∧
      (sendBatchedMouseMove (enqueueMoves st ds)).wsSends = st.wsSends) ∧
    (st.dcOpen = false → st.wsOpen = true →
      (sendBatchedMouseMove (enqueueMoves st ds)).wsSends =
        st.wsSends ++ ds.map (fun d => ClientMsg.mouseMoveSingle st.sessionId st.clientId d) ∧
      (sendBatchedMouseMove (enqueueMoves st ds)).dcSends = st.dcSends) := by
  have henq : enqueueMoves st ds = { st with mouseMoveQueue := ds } := by
    rw [enqueueMoves_effect ds st hhost, hq]
    simp
  refine ⟨by rw [henq], by rw [henq], by rw [henq], ?_, ?_, ?_⟩
  · rw [henq]
    by_cases hdc : st.dcOpen
    · rw [sendBatchedMouseMove_dc _ (by simpa using hdc) (by simpa using hne)]
    · by_cases hws : st.wsOpen
      · rw [sendBatchedMouseMove_relay _ (by simpa using hdc) (by simpa using hws)
          (by simpa using hne)]
      · rw [sendBatchedMouseMove_noTransport _ (by simpa using hdc)
          (by simpa using hws) (by simpa using hne)]
  · intro hdc
    rw [henq, sendBatchedMouseMove_dc _ (by simpa using hdc) (by simpa using hne)]
    exact ⟨rfl, rfl⟩
  · intro hdc hws
    rw [henq, sendBatchedMouseMove_relay _ (by simpa using hdc) (by simpa using hws)
      (by simpa using hne)]
    exact ⟨rfl, rfl⟩

theorem mouseMove_batching_witness :
    (sendBatchedMouseMove (enqueueMoves
        ⟨false, "s123", "c1", true, true, [], [], []⟩
        [⟨1, 1⟩, ⟨2, 2⟩, ⟨3, 3⟩])).dcSends =
      [.mouseMoveBatch "s123" "c1" [⟨1, 1⟩, ⟨2, 2⟩, ⟨3, 3⟩]] ∧
    (sendBatchedMouseMove (enqueueMoves
        ⟨false, "s123", "c1", true, true, [], [], []⟩
        [⟨1, 1⟩, ⟨2, 2⟩, ⟨3, 3⟩])).wsSends = [] :=
  ((mouseMove_batching ⟨false, "s123", "c1", true, true, [], [], []⟩
    [⟨1, 1⟩, ⟨2, 2⟩, ⟨3, 3⟩] rfl rfl (by decide)).2.2.2.2.1 rfl)

/-! ### C8: single-flight restart-as-host with one retry -/

/-- C8: when the peer transport reports `failed`/`disconnected`, a
failure event arriving while the single-flight flag is set schedules no
new restart and changes nothing; otherwise exactly one restart sequence
is scheduled and the flag raised; the restart targets the participant's
own session identifier (`mySessionId`, falling back to the auth session
code); a successful first `startHostSession` ends the sequence, a failed
one triggers exactly one delayed retry — the sequence makes at most two
host-start attempts — and a failed retry reports the failure exactly
once; the flag is lowered at the end of every sequence. -/
theorem roleReversal_singleFlight (st : RestartState) (mySid code : String)
    (firstOk retryOk : Bool) :
    (st.restarting = true → onPeerFailure st = st) ∧
    (st.restarting = false →
      (onPeerFailure st).restarting = true ∧
      (onPeerFailure st).scheduled = st.scheduled + 1 ∧
      (onPeerFailure st).hostStarts = st.hostStarts) ∧
    (mySid ≠ "" → restartSessionId mySid code = some mySid) ∧
    (∀ sid, restartSessionId mySid code = some sid →
      (firstOk = true →
        runRestart st mySid code firstOk retryOk =
          { st with hostStarts := st.hostStarts ++ [sid], restarting := false }) ∧
      (firstOk = false →
        (runRestart st mySid code firstOk retryOk).retries = st.retries + 1 ∧
        (runRestart st mySid code firstOk retryOk).hostStarts =
          st.hostStarts ++ [sid, sid] ∧
        (runRestart st mySid code firstOk retryOk).restarting = false ∧
        (retryOk = false →
          (runRestart st mySid code firstOk retryOk).reported = st.reported + 1) ∧
        (retryOk = true →
          (runRestart st mySid code firstOk retryOk).reported = st.reported))) := by
  refine ⟨?_, ?_, ?_, ?_⟩
  · intro h; simp [onPeerFailure, h]
  · intro h; simp [onPeerFailure, h]
  · intro h; simp [restartSessionId, h]
  · intro sid hsid
    constructor
    · intro hfirst
      simp [runRestart, hsid, hfirst]
    · intro hfirst
      cases hr : retryOk <;>
        simp [runRestart, hsid, hfirst, hr]

theorem roleReversal_singleFlight_witness :
    onPeerFailure ⟨true, 1, [], 0, 0⟩ = ⟨true, 1, [], 0, 0⟩ ∧
    (runRestart ⟨true, 1, [], 0, 0⟩ "s123" "" false false).retries = 1 ∧
    (runRestart ⟨true, 1, [], 0, 0⟩ "s123" "" false false).hostStarts =
      ["s123", "s123"] ∧
    (runRestart ⟨true, 1, [], 0, 0⟩ "s123" "" false false).reported = 1 :=
  have h := roleReversal_singleFlight ⟨true, 1, [], 0, 0⟩ "s123" "" false false
  have hrun := (h.2.2.2 "s123" (h.2.2.1 (by decide))).2 rfl
  ⟨h.1 rfl, hrun.1, hrun.2.1, hrun.2.2.2.1 rfl⟩
